import Mathlib

/-!
Verification development for the Stock-Analyst-Agent repository.

The repository has two entry points:
  * src/scripts/stock_agent.py : class StockAnalysisSystem (config loading,
    agent construction, instruction aggregation, one-shot query with error
    swallowing);
  * src/playground.py : class StockAgentPlayground (environment/secret check,
    playground agent construction).

We shallowly embed the configuration values as a small JSON datatype, the
filesystem outcome of opening the config file as a FileState, Python KeyError
and TypeError raised by dictionary subscription as an InitError, and the agent
objects as records of the keyword arguments the scripts pass to the external
framework constructors (the framework itself is out of scope and treated as
opaque).  Python dictionaries are modelled as association lists with distinct
keys in insertion order; lookup returns the first match.
-/

namespace StockAnalyst

/-- JSON values as produced by json.load, restricted to the shapes the scripts
manipulate: strings, arrays and objects (association lists, insertion order). -/
inductive Json where
  | str (s : String)
  | arr (xs : List Json)
  | obj (kvs : List (String × Json))

/-- Python dictionary subscription config[k]: KeyError when the key is absent,
TypeError when the subscripted value is not a dictionary. -/
inductive InitError where
  | load_io
  | load_decode
  | keyError (k : String)
  | typeError
deriving DecidableEq

/-- Subscription j[k] on a JSON value, as Python evaluates it. -/
def Json.getKey : Json → String → Except InitError Json
  | .obj kvs, k =>
      match kvs.lookup k with
      | some v => Except.ok v
      | none => Except.error (InitError.keyError k)
  | _, _ => Except.error InitError.typeError

/-- A JSON array of string literals. -/
def strArr (l : List String) : Json :=
  Json.arr (l.map Json.str)

/-- Outcome of opening and parsing the configuration file at the given path:
the file may be absent (FileNotFoundError), the open may fail for another
reason, the contents may fail to parse, or parsing may yield a JSON value. -/
inductive FileState where
  | absent
  | openFailed
  | invalidJson
  | parsed (j : Json)

/-- The hard-coded default returned by _load_config when the file is absent. -/
def defaultConfig : Json :=
  Json.obj [
    ("model_id", Json.str "llama-3.3-70b-versatile"),
    ("agents", Json.obj [
      ("web_search", Json.obj [("instructions", strArr ["Always include sources."])]),
      ("finance", Json.obj [("instructions", strArr ["Use tables to present data."])])])]

/-- StockAnalysisSystem._load_config: open and json.load the file, catching
only FileNotFoundError (which yields the built-in default).  Any other open
error or a JSON decode error propagates. -/
def load_config : FileState → Except InitError Json
  | FileState.absent => Except.ok defaultConfig
  | FileState.openFailed => Except.error InitError.load_io
  | FileState.invalidJson => Except.error InitError.load_decode
  | FileState.parsed j => Except.ok j

/-- The boolean capability flags of the external YFinanceTools constructor
that the scripts mention.  A flag the call site does not pass is left at the
framework default, which does not enable the capability; we record it false. -/
structure YFinanceFlags where
  stock_price : Bool
  analyst_recommendations : Bool
  stock_fundamentals : Bool
  company_info : Bool
  technical_indicators : Bool
deriving DecidableEq

/-- The tool objects the scripts construct and hand to agents. -/
inductive Tool where
  | duckduckgo
  | yfinance (flags : YFinanceFlags)
deriving DecidableEq

/-- An agent object as configured by the scripts: the record of keyword
arguments each call site passes to the framework Agent constructor.  The
member scripts pass the raw configuration value under the keyword
"instruction" (kept as JSON, exactly the subscripted value), while the multi
agent receives the aggregated list under "instructions".  The team members are
recorded by their role keys. -/
structure AgentModel where
  name : Option String
  role : Option String
  model : Json
  instruction : Option Json
  instructions : Option (List String)
  tools : List Tool
  team : List String
  show_tools_calls : Bool
  markdown : Bool

/-- Flags of the YFinanceTools call in stock_agent.py's _initialize_agents:
stock_price, analyst_recommendations, stock_fundamentals,
technical_indicators are passed True; company_info is not passed. -/
def oneShotFinanceFlags : YFinanceFlags :=
  ⟨true, true, true, false, true⟩

/-- Reading a JSON array of strings, as Python iterates a list of str when
extending the accumulating instruction list. -/
def strListOf : List Json → Except InitError (List String)
  | [] => Except.ok []
  | Json.str s :: rest => (strListOf rest).map (fun r => s :: r)
  | _ :: _ => Except.error InitError.typeError

/-- Iterating a JSON value as a list of instruction strings.  The scripts only
ever aggregate lists of strings; any other shape is modelled as a TypeError. -/
def instrOfJson : Json → Except InitError (List String)
  | Json.arr xs => strListOf xs
  | _ => Except.error InitError.typeError

/-- The loop body of _combine_instructions: for every value of the agents
dictionary, subscript "instructions" and extend the accumulator. -/
def combineFrom : List (String × Json) → Except InitError (List String)
  | [] => Except.ok []
  | (_, v) :: rest => do
      let ins ← v.getKey "instructions"
      let l ← instrOfJson ins
      let ls ← combineFrom rest
      Except.ok (l ++ ls)

/-- StockAnalysisSystem._combine_instructions: concatenate the "instructions"
of every agent config in self.config["agents"].values(), then deduplicate via
list(set(...)).  Python's set gives no ordering guarantee; we realize the
deduplicated collection as List.dedup, and state set-level facts about it. -/
def combine_instructions (cfg : Json) : Except InitError (List String) := do
  let agents ← cfg.getKey "agents"
  match agents with
  | Json.obj kvs => (combineFrom kvs).map List.dedup
  | _ => Except.error InitError.typeError

/-- The subscription chain config["agents"][role]["instructions"]. -/
def roleInstructions (cfg : Json) (role : String) : Except InitError Json :=
  (cfg.getKey "agents").bind fun a => (a.getKey role).bind fun r => r.getKey "instructions"

/-- StockAnalysisSystem._initialize_agents: build the web-search agent, the
finance agent, then the multi (team) agent, in that order; each dictionary
subscription can raise and aborts the construction at that point. -/
def initialize_agents (cfg model : Json) : Except InitError (List (String × AgentModel)) := do
  let wsIns ← roleInstructions cfg "web_search"
  let wsAgent : AgentModel :=
    ⟨some "Web search agent",
     some "A web search agent that can find information about stocks.",
     model, some wsIns, none, [Tool.duckduckgo], [], true, true⟩
  let finIns ← roleInstructions cfg "finance"
  let finAgent : AgentModel :=
    ⟨some "Finance agent",
     some "A finance agent that can find information about stocks.",
     model, some finIns, none, [Tool.yfinance oneShotFinanceFlags], [], true, true⟩
  let combined ← combine_instructions cfg
  let multiAgent : AgentModel :=
    ⟨none, none, model, none, some combined, [], ["web_search", "finance"], true, true⟩
  Except.ok [("web_search", wsAgent), ("finance", finAgent), ("multi", multiAgent)]

/-- The state StockAnalysisSystem.__init__ leaves behind: the loaded config,
the shared model (Groq(id=config["model_id"])), and the agents dictionary. -/
structure StockAnalysisSystem where
  config : Json
  model : Json
  agents : List (String × AgentModel)

/-- StockAnalysisSystem.__init__: load the config, subscript "model_id" to
build the model, then initialize the agents.  Every step may raise. -/
def systemInit (fs : FileState) : Except InitError StockAnalysisSystem := do
  let cfg ← load_config fs
  let mid ← cfg.getKey "model_id"
  let agents ← initialize_agents cfg mid
  Except.ok ⟨cfg, mid, agents⟩

/-- The combined instruction list carried by the multi (team) agent. -/
def StockAnalysisSystem.multiInstructions (st : StockAnalysisSystem) : Option (List String) :=
  match st.agents.lookup "multi" with
  | some a => a.instructions
  | none => none

/-! ## Playground entry point (src/playground.py) -/

/-- The process environment as visible to os.getenv("PHI_API_KEY"). -/
structure Env where
  phi_api_key : Option String

/-- StockAgentPlayground._load_environment: read PHI_API_KEY and raise
ValueError when it is unset or falsy (the empty string). -/
def load_environment (env : Env) : Except String String :=
  match env.phi_api_key with
  | none => Except.error "PHI_API_KEY not found in environment"
  | some k =>
      if k = "" then Except.error "PHI_API_KEY not found in environment"
      else Except.ok k

/-- Flags of the YFinanceTools call in playground.py's create_finance_agent:
all five capability flags are passed True. -/
def playgroundFinanceFlags : YFinanceFlags :=
  ⟨true, true, true, true, true⟩

/-- The model id hard-coded in StockAgentPlayground.__init__. -/
def playgroundModelId : String := "llama-3.3-70b-versatile"

/-- StockAgentPlayground.create_web_search_agent. -/
def create_web_search_agent : AgentModel :=
  ⟨some "Web search agent",
   some "A web search agent that can find information about stocks.",
   Json.str playgroundModelId,
   some (strArr ["Always include sources and verify information accuracy."]),
   none, [Tool.duckduckgo], [], true, true⟩

/-- StockAgentPlayground.create_finance_agent. -/
def create_finance_agent : AgentModel :=
  ⟨some "Finance agent",
   some "A finance agent that provides detailed stock analysis.",
   Json.str playgroundModelId,
   some (strArr ["Present data in tables with clear explanations."]),
   none, [Tool.yfinance playgroundFinanceFlags], [], true, true⟩

/-- The playground module-level startup: __init__ loads the environment
(raising on a missing key before anything else), then setup_playground
constructs the finance and web-search agents.  The result pairs the outcome
with the list of agents that were constructed during the run. -/
def playgroundRun (env : Env) : Except String Unit × List AgentModel :=
  match load_environment env with
  | Except.error e => (Except.error e, [])
  | Except.ok _ => (Except.ok (), [create_finance_agent, create_web_search_agent])

/-- The one-shot entry point (stock_agent.py main): it constructs
StockAnalysisSystem() without ever reading PHI_API_KEY — the environment
argument is not consulted anywhere in that script. -/
def oneShotEntry (_env : Env) (fs : FileState) : Except InitError StockAnalysisSystem :=
  systemInit fs

/-! ## One-shot query (StockAnalysisSystem.analyze_stock) -/

/-- Outcome of the underlying team-agent call: either a textual response or a
raised exception carrying its message str(e). -/
inductive CallOutcome where
  | response (s : String)
  | raised (msg : String)

/-- StockAnalysisSystem.analyze_stock: return the response; any exception is
caught and converted to the formatted error string, which is returned through
the same string channel (the function is total: nothing propagates). -/
def analyze_stock : CallOutcome → String
  | CallOutcome.response r => r
  | CallOutcome.raised msg => "Error analyzing stock: " ++ msg

/-! ## Configuration builders used to quantify over well-formed configs -/

/-- An agents object assigning each role an instruction list of strings. -/
def mkAgentsObj (roles : List (String × List String)) : Json :=
  Json.obj (roles.map fun r => (r.1, Json.obj [("instructions", strArr r.2)]))

/-- A configuration whose agents mapping assigns each role an instruction
list. -/
def mkCfg (mid : String) (roles : List (String × List String)) : Json :=
  Json.obj [("model_id", Json.str mid), ("agents", mkAgentsObj roles)]

/-- A configuration carrying both required roles, and possibly extra ones. -/
def wfCfg (mid : String) (wsIns finIns : List String)
    (extra : List (String × List String)) : Json :=
  mkCfg mid (("web_search", wsIns) :: ("finance", finIns) :: extra)

/-- The concrete config of the end-to-end scenario of the spec. -/
def cfgC1 : Json := wfCfg "m1" ["x"] ["y"] []

/-! ## Shared lemmas -/

@[simp] lemma ok_bind {α β : Type} (a : α) (f : α → Except InitError β) :
    (Except.ok a >>= f) = f a := rfl

@[simp] lemma error_bind {α β : Type} (e : InitError) (f : α → Except InitError β) :
    ((Except.error e : Except InitError α) >>= f) = Except.error e := rfl

@[simp] lemma ok_map {α β : Type} (a : α) (f : α → β) :
    (Except.ok a : Except InitError α).map f = Except.ok (f a) := rfl

@[simp] lemma bind_ok {α β : Type} (a : α) (f : α → Except InitError β) :
    (Except.ok a : Except InitError α).bind f = f a := rfl

@[simp] lemma bind_error {α β : Type} (e : InitError) (f : α → Except InitError β) :
    (Except.error e : Except InitError α).bind f = Except.error e := rfl

lemma strListOf_map (l : List String) : strListOf (l.map Json.str) = Except.ok l := by
  induction l with
  | nil => rfl
  | cons s rest ih => simp [strListOf, ih, Except.map]

lemma instrOfJson_strArr (l : List String) : instrOfJson (strArr l) = Except.ok l := by
  simp [instrOfJson, strArr, strListOf_map]

lemma combineFrom_mk (roles : List (String × List String)) :
    combineFrom (roles.map fun r => (r.1, Json.obj [("instructions", strArr r.2)]))
      = Except.ok (roles.map Prod.snd).flatten := by
  induction roles with
  | nil => rfl
  | cons r rest ih =>
      simp [combineFrom, Json.getKey, List.lookup, instrOfJson_strArr, ih, Except.bind]

lemma getKey_mkCfg_model_id (mid : String) (roles : List (String × List String)) :
    (mkCfg mid roles).getKey "model_id" = Except.ok (Json.str mid) := rfl

lemma getKey_mkCfg_agents (mid : String) (roles : List (String × List String)) :
    (mkCfg mid roles).getKey "agents" = Except.ok (mkAgentsObj roles) := rfl

lemma combine_mkCfg (mid : String) (roles : List (String × List String)) :
    combine_instructions (mkCfg mid roles)
      = Except.ok ((roles.map Prod.snd).flatten).dedup := by
  simp [combine_instructions, getKey_mkCfg_agents, Except.bind, mkAgentsObj,
    combineFrom_mk, Except.map]

lemma dedup_toFinset (l : List String) : l.dedup.toFinset = l.toFinset := by
  ext a
  simp [List.mem_toFinset, List.mem_dedup]

/-! ## Theorems for the claims -/

/-- C5: when the configuration file is absent, the Configuration Loader
deterministically returns the fixed built-in default: model_id
"llama-3.3-70b-versatile" and an agents mapping covering exactly the roles
web_search and finance, each with its fixed instruction list. -/
theorem load_config_absent_default :
    load_config FileState.absent = Except.ok (Json.obj [
      ("model_id", Json.str "llama-3.3-70b-versatile"),
      ("agents", Json.obj [
        ("web_search", Json.obj [("instructions",
          Json.arr [Json.str "Always include sources."])]),
        ("finance", Json.obj [("instructions",
          Json.arr [Json.str "Use tables to present data."])])])]) := rfl

/-- C6: for every present, parseable configuration carrying both required role
keys, the Configuration Loader returns the file's contents unchanged, and the
model_id and per-role instruction lists read from the loaded record equal the
file's verbatim (no instruction added, dropped, reordered or deduplicated). -/
theorem load_config_roundtrip (mid : String) (wsIns finIns : List String)
    (extra : List (String × List String)) :
    load_config (FileState.parsed (wfCfg mid wsIns finIns extra))
        = Except.ok (wfCfg mid wsIns finIns extra) ∧
    (wfCfg mid wsIns finIns extra).getKey "model_id" = Except.ok (Json.str mid) ∧
    roleInstructions (wfCfg mid wsIns finIns extra) "web_search"
        = Except.ok (strArr wsIns) ∧
    roleInstructions (wfCfg mid wsIns finIns extra) "finance"
        = Except.ok (strArr finIns) := by
  refine ⟨rfl, rfl, ?_, ?_⟩ <;>
    simp [roleInstructions, wfCfg, mkCfg, mkAgentsObj, Json.getKey, List.lookup,
      Except.bind]

/-- C9: the fallback to the built-in default fires only on a missing file: a
present but syntactically invalid file, or an open failing for another reason,
propagates its error through the Loader and through system construction, and
the default is not returned. -/
theorem load_config_no_fallback_when_present :
    load_config FileState.invalidJson = Except.error InitError.load_decode ∧
    load_config FileState.openFailed = Except.error InitError.load_io ∧
    systemInit FileState.invalidJson = Except.error InitError.load_decode ∧
    systemInit FileState.openFailed = Except.error InitError.load_io ∧
    (∀ j, load_config FileState.invalidJson ≠ Except.ok j) ∧
    (∀ j, load_config FileState.openFailed ≠ Except.ok j) := by
  refine ⟨rfl, rfl, rfl, rfl, ?_, ?_⟩ <;> intro j h <;> exact Except.noConfusion h

/-- C3: for every outcome of the underlying team-agent call, analyze_stock is
total (no exception propagates): a raised exception is converted to a string
containing the literal substring "Error analyzing stock:" and returned on the
same string channel on which a successful response is returned verbatim. -/
theorem analyze_stock_swallows (e r : String) :
    (∃ tail, analyze_stock (CallOutcome.raised e) = "Error analyzing stock:" ++ tail) ∧
    analyze_stock (CallOutcome.response r) = r := by
  refine ⟨⟨" " ++ e, ?_⟩, rfl⟩
  show "Error analyzing stock: " ++ e = "Error analyzing stock:" ++ (" " ++ e)
  rw [← String.append_assoc]
  have h : "Error analyzing stock: " = "Error analyzing stock:" ++ " " := by decide
  rw [← h]

/-- C4 counterexample: with PHI_API_KEY absent from the environment, the
one-shot entry point (stock_agent.py) raises no fatal error and constructs all
three agents — agent construction does occur without a resolved secret, so the
claim fails for that entry point. -/
theorem one_shot_builds_agents_without_secret :
    (oneShotEntry ⟨none⟩ FileState.absent).toOption.map (fun st => st.agents.map Prod.fst)
      = some ["web_search", "finance", "multi"] := rfl

/-- C4 amended: the secret check exists only in the playground entry point —
there, an absent (or empty) PHI_API_KEY raises a fatal error before any agent
is constructed; the one-shot entry point never consults the environment and
proceeds identically whatever it holds. -/
theorem secret_check_only_in_playground (env : Env)
    (h : env.phi_api_key = none ∨ env.phi_api_key = some "") :
    playgroundRun env = (Except.error "PHI_API_KEY not found in environment", []) ∧
    (∀ e e2 : Env, ∀ fs, oneShotEntry e fs = oneShotEntry e2 fs) := by
  constructor
  · rcases h with h | h <;> simp [playgroundRun, load_environment, h]
  · intro e e2 fs
    rfl

/-- Witness for the amended C4 theorem at the concrete environment lacking the
key. -/
theorem secret_check_only_in_playground_witness :
    playgroundRun ⟨none⟩ = (Except.error "PHI_API_KEY not found in environment", []) ∧
    (∀ e e2 : Env, ∀ fs, oneShotEntry e fs = oneShotEntry e2 fs) :=
  secret_check_only_in_playground ⟨none⟩ (Or.inl rfl)

/-- The first YFinanceTools flags among an agent's tools. -/
def yfinanceFlagsOf (a : AgentModel) : Option YFinanceFlags :=
  a.tools.findSome? fun t =>
    match t with
    | Tool.yfinance f => some f
    | _ => none

/-- The finance agent's YFinanceTools flags produced by a one-shot run on the
given file state, when the run succeeds. -/
def financeFlagsOfRun (fs : FileState) : Option YFinanceFlags :=
  (systemInit fs).toOption.bind fun st => (st.agents.lookup "finance").bind yfinanceFlagsOf

/-- Any successful system construction yields exactly the three agents built
by _initialize_agents, with the finance agent carrying the one-shot
YFinanceTools flags. -/
lemma systemInit_ok_shape (fs : FileState) (st : StockAnalysisSystem)
    (h : systemInit fs = Except.ok st) :
    ∃ cfg mid wsIns finIns combined,
      st = ⟨cfg, mid,
        [("web_search", ⟨some "Web search agent",
            some "A web search agent that can find information about stocks.",
            mid, some wsIns, none, [Tool.duckduckgo], [], true, true⟩),
         ("finance", ⟨some "Finance agent",
            some "A finance agent that can find information about stocks.",
            mid, some finIns, none, [Tool.yfinance oneShotFinanceFlags], [], true, true⟩),
         ("multi", ⟨none, none, mid, none, some combined, [],
            ["web_search", "finance"], true, true⟩)]⟩ := by
  unfold systemInit at h
  cases hlc : load_config fs with
  | error e => rw [hlc] at h; simp at h
  | ok cfg =>
      rw [hlc] at h
      simp only [ok_bind] at h
      cases hmid : cfg.getKey "model_id" with
      | error e => rw [hmid] at h; simp at h
      | ok mid =>
          rw [hmid] at h
          simp only [ok_bind] at h
          unfold initialize_agents at h
          cases hws : roleInstructions cfg "web_search" with
          | error e => rw [hws] at h; simp at h
          | ok wsIns =>
              rw [hws] at h
              simp only [ok_bind] at h
              cases hfin : roleInstructions cfg "finance" with
              | error e => rw [hfin] at h; simp at h
              | ok finIns =>
                  rw [hfin] at h
                  simp only [ok_bind] at h
                  cases hcomb : combine_instructions cfg with
                  | error e => rw [hcomb] at h; simp at h
                  | ok combined =>
                      rw [hcomb] at h
                      simp only [ok_bind, Except.ok.injEq] at h
                      exact ⟨cfg, mid, wsIns, finIns, combined, h.symm⟩

/-- C8 counterexample: at the concrete default configuration (absent file),
the finance agent built in one-shot mode enables company_info = false, while
the playground finance agent enables company_info = true; the two entry
points' finance agents do not carry the same set of enabled financial-tool
capability flags. -/
theorem finance_flags_differ :
    financeFlagsOfRun FileState.absent = some oneShotFinanceFlags ∧
    yfinanceFlagsOf create_finance_agent = some playgroundFinanceFlags ∧
    oneShotFinanceFlags.company_info = false ∧
    playgroundFinanceFlags.company_info = true ∧
    oneShotFinanceFlags ≠ playgroundFinanceFlags := by
  refine ⟨rfl, rfl, rfl, rfl, ?_⟩
  decide

/-- C8 amended: the two entry points agree on four of the five
financial-tool capability flags (stock_price, analyst_recommendations,
stock_fundamentals, technical_indicators are enabled by both finance agents),
but the playground finance agent additionally enables company_info whereas the
one-shot finance agent does not pass it — so, for every file state on which
the one-shot system constructs at all, its finance agent's flags differ from
the playground finance agent's exactly at company_info. -/
theorem finance_flags_amended (fs : FileState) :
    (financeFlagsOfRun fs = some oneShotFinanceFlags ∨ financeFlagsOfRun fs = none) ∧
    yfinanceFlagsOf create_finance_agent = some playgroundFinanceFlags ∧
    oneShotFinanceFlags.stock_price = playgroundFinanceFlags.stock_price ∧
    oneShotFinanceFlags.analyst_recommendations
        = playgroundFinanceFlags.analyst_recommendations ∧
    oneShotFinanceFlags.stock_fundamentals = playgroundFinanceFlags.stock_fundamentals ∧
    oneShotFinanceFlags.technical_indicators
        = playgroundFinanceFlags.technical_indicators ∧
    oneShotFinanceFlags.company_info ≠ playgroundFinanceFlags.company_info := by
  refine ⟨?_, rfl, rfl, rfl, rfl, rfl, by decide⟩
  unfold financeFlagsOfRun
  cases hs : systemInit fs with
  | error e => right; rfl
  | ok st =>
      left
      obtain ⟨cfg, mid, wsIns, finIns, combined, hst⟩ := systemInit_ok_shape fs st hs
      subst hst
      simp [Except.toOption, List.lookup, yfinanceFlagsOf, List.findSome?]

lemma getKey_wfCfg_model_id (mid : String) (wsIns finIns : List String)
    (extra : List (String × List String)) :
    (wfCfg mid wsIns finIns extra).getKey "model_id" = Except.ok (Json.str mid) := rfl

lemma roleInstructions_wfCfg_web (mid : String) (wsIns finIns : List String)
    (extra : List (String × List String)) :
    roleInstructions (wfCfg mid wsIns finIns extra) "web_search"
      = Except.ok (strArr wsIns) := by
  simp [roleInstructions, wfCfg, mkCfg, mkAgentsObj, Json.getKey, List.lookup,
    Except.bind]

lemma roleInstructions_wfCfg_fin (mid : String) (wsIns finIns : List String)
    (extra : List (String × List String)) :
    roleInstructions (wfCfg mid wsIns finIns extra) "finance"
      = Except.ok (strArr finIns) := by
  simp [roleInstructions, wfCfg, mkCfg, mkAgentsObj, Json.getKey, List.lookup,
    Except.bind]

lemma combine_wfCfg (mid : String) (wsIns finIns : List String)
    (extra : List (String × List String)) :
    combine_instructions (wfCfg mid wsIns finIns extra)
      = Except.ok ((wsIns ++ (finIns ++ (extra.map Prod.snd).flatten)).dedup) := by
  have hcomb := combine_mkCfg mid (("web_search", wsIns) :: ("finance", finIns) :: extra)
  simp only [List.map_cons, List.flatten_cons] at hcomb
  exact hcomb

/-- Full symbolic evaluation of StockAnalysisSystem.__init__ on a well-formed
configuration carrying both required roles and possibly extra ones. -/
lemma systemInit_wfCfg (mid : String) (wsIns finIns : List String)
    (extra : List (String × List String)) :
    systemInit (FileState.parsed (wfCfg mid wsIns finIns extra)) =
      Except.ok ⟨wfCfg mid wsIns finIns extra, Json.str mid,
        [("web_search", ⟨some "Web search agent",
            some "A web search agent that can find information about stocks.",
            Json.str mid, some (strArr wsIns), none, [Tool.duckduckgo], [], true, true⟩),
         ("finance", ⟨some "Finance agent",
            some "A finance agent that can find information about stocks.",
            Json.str mid, some (strArr finIns), none,
            [Tool.yfinance oneShotFinanceFlags], [], true, true⟩),
         ("multi", ⟨none, none, Json.str mid, none,
            some ((wsIns ++ (finIns ++ (extra.map Prod.snd).flatten)).dedup), [],
            ["web_search", "finance"], true, true⟩)]⟩ := by
  simp [systemInit, load_config, initialize_agents, getKey_wfCfg_model_id,
    roleInstructions_wfCfg_web, roleInstructions_wfCfg_fin, combine_wfCfg]

/-- C1: for every configuration whose agents mapping (with distinct role
keys, as a Python dict has) assigns each role an instruction list, the
Instruction Aggregator returns a duplicate-free collection whose elements are
exactly the set union of every instruction string across all agent configs;
and for the concrete config of the end-to-end scenario, the team agent's
combined instruction set equals the set containing "x" and "y". -/
theorem combine_is_set_union (mid : String) (roles : List (String × List String))
    (hkeys : (roles.map Prod.fst).Nodup) :
    (∃ out, combine_instructions (mkCfg mid roles) = Except.ok out ∧
        out.Nodup ∧ out.toFinset = ((roles.map Prod.snd).flatten).toFinset) ∧
    (∃ st, systemInit (FileState.parsed cfgC1) = Except.ok st ∧
        ∃ l, st.multiInstructions = some l ∧
          l.toFinset = ({"x", "y"} : Finset String)) := by
  constructor
  · exact ⟨((roles.map Prod.snd).flatten).dedup, combine_mkCfg mid roles,
      List.nodup_dedup _, dedup_toFinset _⟩
  · refine ⟨_, systemInit_wfCfg "m1" ["x"] ["y"] [], ["x", "y"], rfl, ?_⟩
    decide

/-- Witness for C1 at the concrete two-role configuration of the end-to-end
scenario. -/
theorem combine_is_set_union_witness :
    (∃ out, combine_instructions
          (mkCfg "m1" [("web_search", ["x"]), ("finance", ["y"])]) = Except.ok out ∧
        out.Nodup ∧
        out.toFinset =
          (([("web_search", ["x"]), ("finance", ["y"])].map
              (Prod.snd (α := String) (β := List String))).flatten).toFinset) ∧
    (∃ st, systemInit (FileState.parsed cfgC1) = Except.ok st ∧
        ∃ l, st.multiInstructions = some l ∧
          l.toFinset = ({"x", "y"} : Finset String)) :=
  combine_is_set_union "m1" [("web_search", ["x"]), ("finance", ["y"])] (by decide)

/-- C2: the Instruction Aggregator is order-insensitive — two well-formed
configurations whose instruction occurrences are permutations of one another
(in particular, configurations differing by a permutation of the roles or of
the instructions within a role) aggregate to the same set — and idempotent:
feeding an aggregated result back through the aggregator as a single config's
instruction list yields the same set again. -/
theorem combine_order_insensitive_idem (mid1 mid2 : String)
    (roles1 roles2 : List (String × List String))
    (hkeys1 : (roles1.map Prod.fst).Nodup) (hkeys2 : (roles2.map Prod.fst).Nodup)
    (hperm : ((roles1.map Prod.snd).flatten).Perm ((roles2.map Prod.snd).flatten)) :
    ∃ out1 out2 out3,
      combine_instructions (mkCfg mid1 roles1) = Except.ok out1 ∧
      combine_instructions (mkCfg mid2 roles2) = Except.ok out2 ∧
      out1.toFinset = out2.toFinset ∧
      combine_instructions (mkCfg mid1 [("solo", out1)]) = Except.ok out3 ∧
      out3.toFinset = out1.toFinset := by
  refine ⟨((roles1.map Prod.snd).flatten).dedup, ((roles2.map Prod.snd).flatten).dedup,
    ((roles1.map Prod.snd).flatten).dedup.dedup,
    combine_mkCfg mid1 roles1, combine_mkCfg mid2 roles2, ?_, ?_, ?_⟩
  · rw [dedup_toFinset, dedup_toFinset]
    exact List.toFinset_eq_of_perm _ _ hperm
  · have h := combine_mkCfg mid1 [("solo", ((roles1.map Prod.snd).flatten).dedup)]
    simpa using h
  · rw [dedup_toFinset]

/-- Witness for C2 at the concrete aggregation example of the spec, the second
configuration permuting both the roles and the instructions within a role. -/
theorem combine_order_insensitive_idem_witness :
    ∃ out1 out2 out3,
      combine_instructions
          (mkCfg "m" [("web_search", ["A"]), ("finance", ["A", "B"])]) = Except.ok out1 ∧
      combine_instructions
          (mkCfg "m" [("finance", ["B", "A"]), ("web_search", ["A"])]) = Except.ok out2 ∧
      out1.toFinset = out2.toFinset ∧
      combine_instructions (mkCfg "m" [("solo", out1)]) = Except.ok out3 ∧
      out3.toFinset = out1.toFinset :=
  combine_order_insensitive_idem "m" "m"
    [("web_search", ["A"]), ("finance", ["A", "B"])]
    [("finance", ["B", "A"]), ("web_search", ["A"])]
    (by decide) (by decide) (by decide)

/-- C7: a present, parseable configuration lacking an expected key is not
locally recovered and does not fall back to the default: the corresponding
KeyError propagates out of system construction — for the missing model_id,
agents, web_search, instructions and finance keys respectively. -/
theorem missing_key_propagates (kvs akvs wkvs : List (String × Json)) (m ws : Json) :
    (kvs.lookup "model_id" = none →
      systemInit (FileState.parsed (Json.obj kvs))
        = Except.error (InitError.keyError "model_id")) ∧
    (kvs.lookup "model_id" = some m → kvs.lookup "agents" = none →
      systemInit (FileState.parsed (Json.obj kvs))
        = Except.error (InitError.keyError "agents")) ∧
    (kvs.lookup "model_id" = some m → kvs.lookup "agents" = some (Json.obj akvs) →
      akvs.lookup "web_search" = none →
      systemInit (FileState.parsed (Json.obj kvs))
        = Except.error (InitError.keyError "web_search")) ∧
    (kvs.lookup "model_id" = some m → kvs.lookup "agents" = some (Json.obj akvs) →
      akvs.lookup "web_search" = some (Json.obj wkvs) →
      wkvs.lookup "instructions" = none →
      systemInit (FileState.parsed (Json.obj kvs))
        = Except.error (InitError.keyError "instructions")) ∧
    (kvs.lookup "model_id" = some m → kvs.lookup "agents" = some (Json.obj akvs) →
      akvs.lookup "web_search" = some (Json.obj wkvs) →
      wkvs.lookup "instructions" = some ws →
      akvs.lookup "finance" = none →
      systemInit (FileState.parsed (Json.obj kvs))
        = Except.error (InitError.keyError "finance")) := by
  refine ⟨?_, ?_, ?_, ?_, ?_⟩
  · intro h1
    simp [systemInit, load_config, initialize_agents, roleInstructions,
      Json.getKey, h1]
  · intro h1 h2
    simp [systemInit, load_config, initialize_agents, roleInstructions,
      Json.getKey, h1, h2]
  · intro h1 h2 h3
    simp [systemInit, load_config, initialize_agents, roleInstructions,
      Json.getKey, h1, h2, h3]
  · intro h1 h2 h3 h4
    simp [systemInit, load_config, initialize_agents, roleInstructions,
      Json.getKey, h1, h2, h3, h4]
  · intro h1 h2 h3 h4 h5
    simp [systemInit, load_config, initialize_agents, roleInstructions,
      Json.getKey, h1, h2, h3, h4, h5]

/-- Witness for C7: five concrete present files, each lacking one expected
key, all of which error with that key during system construction. -/
theorem missing_key_propagates_witness :
    systemInit (FileState.parsed (Json.obj [("agents", Json.obj [])]))
        = Except.error (InitError.keyError "model_id") ∧
    systemInit (FileState.parsed (Json.obj [("model_id", Json.str "m")]))
        = Except.error (InitError.keyError "agents") ∧
    systemInit (FileState.parsed (Json.obj
          [("model_id", Json.str "m"), ("agents", Json.obj [])]))
        = Except.error (InitError.keyError "web_search") ∧
    systemInit (FileState.parsed (Json.obj
          [("model_id", Json.str "m"),
           ("agents", Json.obj [("web_search", Json.obj [])])]))
        = Except.error (InitError.keyError "instructions") ∧
    systemInit (FileState.parsed (Json.obj
          [("model_id", Json.str "m"),
           ("agents", Json.obj
             [("web_search", Json.obj [("instructions", strArr ["i"])])])]))
        = Except.error (InitError.keyError "finance") :=
  ⟨(missing_key_propagates [("agents", Json.obj [])] [] []
      (Json.str "m") (strArr ["i"])).1 rfl,
   (missing_key_propagates [("model_id", Json.str "m")] [] []
      (Json.str "m") (strArr ["i"])).2.1 rfl rfl,
   (missing_key_propagates [("model_id", Json.str "m"), ("agents", Json.obj [])] [] []
      (Json.str "m") (strArr ["i"])).2.2.1 rfl rfl rfl,
   (missing_key_propagates
      [("model_id", Json.str "m"), ("agents", Json.obj [("web_search", Json.obj [])])]
      [("web_search", Json.obj [])] []
      (Json.str "m") (strArr ["i"])).2.2.2.1 rfl rfl rfl rfl,
   (missing_key_propagates
      [("model_id", Json.str "m"),
       ("agents", Json.obj [("web_search", Json.obj [("instructions", strArr ["i"])])])]
      [("web_search", Json.obj [("instructions", strArr ["i"])])]
      [("instructions", strArr ["i"])]
      (Json.str "m") (strArr ["i"])).2.2.2.2 rfl rfl rfl rfl rfl⟩

/-- C10: for every well-formed configuration carrying role keys beyond
web_search and finance (all role keys distinct, as in a Python dict), system
construction succeeds building member agents only for web_search and finance
(plus the multi team agent), yet the extra roles' instructions are included in
the team agent's combined instruction set. -/
theorem extra_roles_combined (mid : String) (wsIns finIns : List String)
    (extra : List (String × List String))
    (hkeys : ((("web_search", wsIns) :: ("finance", finIns) :: extra).map Prod.fst).Nodup) :
    ∃ st, systemInit (FileState.parsed (wfCfg mid wsIns finIns extra)) = Except.ok st ∧
      st.agents.map Prod.fst = ["web_search", "finance", "multi"] ∧
      ∃ l, st.multiInstructions = some l ∧
        l.toFinset =
          wsIns.toFinset ∪ finIns.toFinset ∪ ((extra.map Prod.snd).flatten).toFinset := by
  refine ⟨_, systemInit_wfCfg mid wsIns finIns extra, rfl, _, rfl, ?_⟩
  rw [dedup_toFinset]
  simp [List.toFinset_append, Finset.union_assoc]

/-- Witness for C10 with one extra role beyond web_search and finance. -/
theorem extra_roles_combined_witness :
    ∃ st, systemInit (FileState.parsed (wfCfg "m" ["w"] ["f"] [("extra", ["e"])]))
        = Except.ok st ∧
      st.agents.map Prod.fst = ["web_search", "finance", "multi"] ∧
      ∃ l, st.multiInstructions = some l ∧
        l.toFinset =
          (["w"] : List String).toFinset ∪ (["f"] : List String).toFinset ∪
            (([("extra", ["e"])].map
                (Prod.snd (α := String) (β := List String))).flatten).toFinset :=
  extra_roles_combined "m" ["w"] ["f"] [("extra", ["e"])] (by decide)

end StockAnalyst
